import Mathlib

/-!
# certgen: configuration resolution (`internal/option/config.go`)

A shallow embedding of the Go package `option`: the key constants, the
`CertGenConfig` struct, `getStringWithFallback` and `CertGenConfig.PopulateFrom`.

* `*viper.Viper` is a third-party type; `PopulateFrom` uses it only through the
  four typed accessors `GetBool`, `GetString`, `GetDuration`, `GetStringSlice`,
  so a source is embedded as the record of these four accessors.
* `time.Duration` is an `int64` count of nanoseconds; no arithmetic is done on
  it here, so it is embedded as `Int`.
* `[]string` is embedded as `List String`, the sequence of the elements of the
  slice; `StringSlice` keeps the nil slice apart from an empty one for the one
  statement in which that matters.
* `PopulateFrom` mutates its receiver; it is embedded as a function from the
  receiver's prior state and the source to the receiver's final state, one
  field assignment per entry, in the order of the source.
* `PopulateFromT` is the same method with every accessor call recorded, for the
  statements about which keys are read; it is proved to return what
  `PopulateFrom` returns.
-/

namespace option

/-! ## Key constants (config.go, lines 16-176) -/

def Debug : String := "debug"
def CiliumNamespace : String := "cilium-namespace"
def K8sKubeConfigPath : String := "k8s-kubeconfig-path"
def K8sRequestTimeout : String := "k8s-request-timeout"
def CACertFile : String := "ca-cert-file"
def CAKeyFile : String := "ca-key-file"
def CAGenerate : String := "ca-generate"
def CAReuseSecret : String := "ca-reuse-secret"
def CACommonName : String := "ca-common-name"
def CAValidityDuration : String := "ca-validity-duration"
def CASecretName : String := "ca-secret-name"
def CASecretNamespace : String := "ca-secret-namespace"
def HubbleServerCertGenerate : String := "hubble-server-cert-generate"
def HubbleServerCertCommonName : String := "hubble-server-cert-common-name"
def HubbleServerCertValidityDuration : String := "hubble-server-cert-validity-duration"
def HubbleServerCertSecretName : String := "hubble-server-cert-secret-name"
def HubbleServerCertSecretNamespace : String := "hubble-server-cert-secret-namespace"
def HubbleMetricsServerCertGenerate : String := "hubble-metrics-server-cert-generate"
def HubbleMetricsServerCertCommonName : String := "hubble-metrics-server-cert-common-name"
def HubbleMetricsServerCertValidityDuration : String :=
  "hubble-metrics-server-cert-validity-duration"
def HubbleMetricsServerCertSecretName : String := "hubble-metrics-server-cert-secret-name"
def HubbleMetricsServerCertSecretNamespace : String :=
  "hubble-metrics-server-cert-secret-namespace"
def HubbleRelayServerCertGenerate : String := "hubble-relay-server-cert-generate"
def HubbleRelayServerCertCommonName : String := "hubble-relay-server-cert-common-name"
def HubbleRelayServerCertValidityDuration : String :=
  "hubble-relay-server-cert-validity-duration"
def HubbleRelayServerCertSecretName : String := "hubble-relay-server-cert-secret-name"
def HubbleRelayServerCertSecretNamespace : String :=
  "hubble-relay-server-cert-secret-namespace"
def HubbleRelayClientCertGenerate : String := "hubble-relay-client-cert-generate"
def HubbleRelayClientCertCommonName : String := "hubble-relay-client-cert-common-name"
def HubbleRelayClientCertValidityDuration : String :=
  "hubble-relay-client-cert-validity-duration"
def HubbleRelayClientCertSecretName : String := "hubble-relay-client-cert-secret-name"
def HubbleRelayClientCertSecretNamespace : String :=
  "hubble-relay-client-cert-secret-namespace"
def ClustermeshApiserverServerCertGenerate : String :=
  "clustermesh-apiserver-server-cert-generate"
def ClustermeshApiserverServerCertCommonName : String :=
  "clustermesh-apiserver-server-cert-common-name"
def ClustermeshApiserverServerCertValidityDuration : String :=
  "clustermesh-apiserver-server-cert-validity-duration"
def ClustermeshApiserverServerCertSecretName : String :=
  "clustermesh-apiserver-server-cert-secret-name"
def ClustermeshApiserverServerCertSANs : String := "clustermesh-apiserver-server-cert-sans"
def ClustermeshApiserverAdminCertGenerate : String :=
  "clustermesh-apiserver-admin-cert-generate"
def ClustermeshApiserverAdminCertCommonName : String :=
  "clustermesh-apiserver-admin-cert-common-name"
def ClustermeshApiserverAdminCertValidityDuration : String :=
  "clustermesh-apiserver-admin-cert-validity-duration"
def ClustermeshApiserverAdminCertSecretName : String :=
  "clustermesh-apiserver-admin-cert-secret-name"
def ClustermeshApiserverClientCertGenerate : String :=
  "clustermesh-apiserver-client-cert-generate"
def ClustermeshApiserverClientCertCommonName : String :=
  "clustermesh-apiserver-client-cert-common-name"
def ClustermeshApiserverClientCertValidityDuration : String :=
  "clustermesh-apiserver-client-cert-validity-duration"
def ClustermeshApiserverClientCertSecretName : String :=
  "clustermesh-apiserver-client-cert-secret-name"
def ClustermeshApiserverRemoteCertGenerate : String :=
  "clustermesh-apiserver-remote-cert-generate"
def ClustermeshApiserverRemoteCertCommonName : String :=
  "clustermesh-apiserver-remote-cert-common-name"
def ClustermeshApiserverRemoteCertValidityDuration : String :=
  "clustermesh-apiserver-remote-cert-validity-duration"
def ClustermeshApiserverRemoteCertSecretName : String :=
  "clustermesh-apiserver-remote-cert-secret-name"

/-! ## The source (`*viper.Viper`) -/

/-- The part of `*viper.Viper` that `PopulateFrom` uses: its four typed
accessors, each a function of the key. -/
structure Viper where
  GetBool : String → Bool
  GetString : String → String
  GetDuration : String → Int
  GetStringSlice : String → List String

/-! ## The configuration struct (config.go, lines 178-338) -/

/-- The Go struct `CertGenConfig`, fields in declaration order. The default of
each field is the zero value of its Go type, so `{}` is `CertGenConfig{}`. -/
structure CertGenConfig where
  Debug : Bool := false
  CiliumNamespace : String := ""
  K8sKubeConfigPath : String := ""
  K8sRequestTimeout : Int := 0
  CACertFile : String := ""
  CAKeyFile : String := ""
  CAGenerate : Bool := false
  CAReuseSecret : Bool := false
  CACommonName : String := ""
  CAValidityDuration : Int := 0
  CASecretName : String := ""
  CASecretNamespace : String := ""
  HubbleRelayClientCertGenerate : Bool := false
  HubbleRelayClientCertCommonName : String := ""
  HubbleRelayClientCertValidityDuration : Int := 0
  HubbleRelayClientCertSecretName : String := ""
  HubbleRelayClientCertSecretNamespace : String := ""
  HubbleRelayServerCertGenerate : Bool := false
  HubbleRelayServerCertCommonName : String := ""
  HubbleRelayServerCertValidityDuration : Int := 0
  HubbleRelayServerCertSecretName : String := ""
  HubbleRelayServerCertSecretNamespace : String := ""
  HubbleServerCertGenerate : Bool := false
  HubbleServerCertCommonName : String := ""
  HubbleServerCertValidityDuration : Int := 0
  HubbleServerCertSecretName : String := ""
  HubbleServerCertSecretNamespace : String := ""
  HubbleMetricsServerCertGenerate : Bool := false
  HubbleMetricsServerCertCommonName : String := ""
  HubbleMetricsServerCertValidityDuration : Int := 0
  HubbleMetricsServerCertSecretName : String := ""
  HubbleMetricsServerCertSecretNamespace : String := ""
  ClustermeshApiserverServerCertGenerate : Bool := false
  ClustermeshApiserverServerCertCommonName : String := ""
  ClustermeshApiserverServerCertValidityDuration : Int := 0
  ClustermeshApiserverServerCertSecretName : String := ""
  ClustermeshApiserverServerCertSANs : List String := []
  ClustermeshApiserverAdminCertGenerate : Bool := false
  ClustermeshApiserverAdminCertCommonName : String := ""
  ClustermeshApiserverAdminCertValidityDuration : Int := 0
  ClustermeshApiserverAdminCertSecretName : String := ""
  ClustermeshApiserverClientCertGenerate : Bool := false
  ClustermeshApiserverClientCertCommonName : String := ""
  ClustermeshApiserverClientCertValidityDuration : Int := 0
  ClustermeshApiserverClientCertSecretName : String := ""
  ClustermeshApiserverRemoteCertGenerate : Bool := false
  ClustermeshApiserverRemoteCertCommonName : String := ""
  ClustermeshApiserverRemoteCertValidityDuration : Int := 0
  ClustermeshApiserverRemoteCertSecretName : String := ""

/-- The package variable `Config = &CertGenConfig{}` before it is populated. -/
def Config : CertGenConfig := {}

/-! ## The resolver (config.go, lines 340-412) -/

/-- The Go function `getStringWithFallback`: the value at `key` if it is
non-empty, the value at `fallbackKey` otherwise. -/
def getStringWithFallback (vp : Viper) (key fallbackKey : String) : String :=
  let value := vp.GetString key
  if value ≠ "" then value else vp.GetString fallbackKey

/-- The Go method `(c *CertGenConfig) PopulateFrom(vp)`: the receiver after
the 49 assignments, listed in the order of the source. No right-hand side reads
the receiver, so the assignments are written as one update of `c`. -/
def CertGenConfig.PopulateFrom (c : CertGenConfig) (vp : Viper) : CertGenConfig :=
  { c with
    Debug := vp.GetBool option.Debug,
    K8sKubeConfigPath := vp.GetString option.K8sKubeConfigPath,
    K8sRequestTimeout := vp.GetDuration option.K8sRequestTimeout,
    CACertFile := vp.GetString option.CACertFile,
    CAKeyFile := vp.GetString option.CAKeyFile,
    CAGenerate := vp.GetBool option.CAGenerate,
    CAReuseSecret := vp.GetBool option.CAReuseSecret,
    CACommonName := vp.GetString option.CACommonName,
    CAValidityDuration := vp.GetDuration option.CAValidityDuration,
    CASecretName := vp.GetString option.CASecretName,
    CASecretNamespace := getStringWithFallback vp option.CASecretNamespace option.CiliumNamespace,
    HubbleRelayClientCertGenerate := vp.GetBool option.HubbleRelayClientCertGenerate,
    HubbleRelayClientCertCommonName := vp.GetString option.HubbleRelayClientCertCommonName,
    HubbleRelayClientCertValidityDuration :=
      vp.GetDuration option.HubbleRelayClientCertValidityDuration,
    HubbleRelayClientCertSecretName := vp.GetString option.HubbleRelayClientCertSecretName,
    HubbleRelayClientCertSecretNamespace :=
      getStringWithFallback vp option.HubbleRelayClientCertSecretNamespace option.CiliumNamespace,
    HubbleRelayServerCertGenerate := vp.GetBool option.HubbleRelayServerCertGenerate,
    HubbleRelayServerCertCommonName := vp.GetString option.HubbleRelayServerCertCommonName,
    HubbleRelayServerCertValidityDuration :=
      vp.GetDuration option.HubbleRelayServerCertValidityDuration,
    HubbleRelayServerCertSecretName := vp.GetString option.HubbleRelayServerCertSecretName,
    HubbleRelayServerCertSecretNamespace :=
      getStringWithFallback vp option.HubbleRelayServerCertSecretNamespace option.CiliumNamespace,
    HubbleServerCertGenerate := vp.GetBool option.HubbleServerCertGenerate,
    HubbleServerCertCommonName := vp.GetString option.HubbleServerCertCommonName,
    HubbleServerCertValidityDuration := vp.GetDuration option.HubbleServerCertValidityDuration,
    HubbleServerCertSecretName := vp.GetString option.HubbleServerCertSecretName,
    HubbleServerCertSecretNamespace :=
      getStringWithFallback vp option.HubbleServerCertSecretNamespace option.CiliumNamespace,
    HubbleMetricsServerCertGenerate := vp.GetBool option.HubbleMetricsServerCertGenerate,
    HubbleMetricsServerCertCommonName := vp.GetString option.HubbleMetricsServerCertCommonName,
    HubbleMetricsServerCertValidityDuration :=
      vp.GetDuration option.HubbleMetricsServerCertValidityDuration,
    HubbleMetricsServerCertSecretName := vp.GetString option.HubbleMetricsServerCertSecretName,
    HubbleMetricsServerCertSecretNamespace :=
      getStringWithFallback vp option.HubbleMetricsServerCertSecretNamespace option.CiliumNamespace,
    CiliumNamespace := vp.GetString option.CiliumNamespace,
    ClustermeshApiserverServerCertGenerate :=
      vp.GetBool option.ClustermeshApiserverServerCertGenerate,
    ClustermeshApiserverServerCertCommonName :=
      vp.GetString option.ClustermeshApiserverServerCertCommonName,
    ClustermeshApiserverServerCertValidityDuration :=
      vp.GetDuration option.ClustermeshApiserverServerCertValidityDuration,
    ClustermeshApiserverServerCertSecretName :=
      vp.GetString option.ClustermeshApiserverServerCertSecretName,
    ClustermeshApiserverServerCertSANs :=
      vp.GetStringSlice option.ClustermeshApiserverServerCertSANs,
    ClustermeshApiserverAdminCertGenerate :=
      vp.GetBool option.ClustermeshApiserverAdminCertGenerate,
    ClustermeshApiserverAdminCertCommonName :=
      vp.GetString option.ClustermeshApiserverAdminCertCommonName,
    ClustermeshApiserverAdminCertValidityDuration :=
      vp.GetDuration option.ClustermeshApiserverAdminCertValidityDuration,
    ClustermeshApiserverAdminCertSecretName :=
      vp.GetString option.ClustermeshApiserverAdminCertSecretName,
    ClustermeshApiserverClientCertGenerate :=
      vp.GetBool option.ClustermeshApiserverClientCertGenerate,
    ClustermeshApiserverClientCertCommonName :=
      vp.GetString option.ClustermeshApiserverClientCertCommonName,
    ClustermeshApiserverClientCertValidityDuration :=
      vp.GetDuration option.ClustermeshApiserverClientCertValidityDuration,
    ClustermeshApiserverClientCertSecretName :=
      vp.GetString option.ClustermeshApiserverClientCertSecretName,
    ClustermeshApiserverRemoteCertGenerate :=
      vp.GetBool option.ClustermeshApiserverRemoteCertGenerate,
    ClustermeshApiserverRemoteCertCommonName :=
      vp.GetString option.ClustermeshApiserverRemoteCertCommonName,
    ClustermeshApiserverRemoteCertValidityDuration :=
      vp.GetDuration option.ClustermeshApiserverRemoteCertValidityDuration,
    ClustermeshApiserverRemoteCertSecretName :=
      vp.GetString option.ClustermeshApiserverRemoteCertSecretName }

/-! ## A key/value store as a source -/

/-- A value stored under a key: one constructor per accessor type. -/
inductive Value where
  | bool (b : Bool)
  | string (s : String)
  | duration (d : Int)
  | stringSlice (l : List String)

/-- Modelled from the spec: the key/value source behind the typed accessors
(the Viper library is a third-party dependency, not part of this repository).
A source is a list of key/value entries, the first entry of a key being the one
in force; each accessor returns the stored value of its type, and its zero
value (false, empty string, zero duration, empty list) when the key is absent
or holds a value of another type. -/
def Viper.ofSettings (s : List (String × Value)) : Viper where
  GetBool k := match s.lookup k with
    | some (Value.bool b) => b
    | _ => false
  GetString k := match s.lookup k with
    | some (Value.string v) => v
    | _ => ""
  GetDuration k := match s.lookup k with
    | some (Value.duration d) => d
    | _ => 0
  GetStringSlice k := match s.lookup k with
    | some (Value.stringSlice l) => l
    | _ => []

/-- The source that holds, at each of the 49 key constants, the value of the
field of `cfg` of the same name, and nothing else (the keys in the order of the
const block). -/
def toSource (cfg : CertGenConfig) : Viper :=
  Viper.ofSettings [
    (Debug, Value.bool cfg.Debug),
    (CiliumNamespace, Value.string cfg.CiliumNamespace),
    (K8sKubeConfigPath, Value.string cfg.K8sKubeConfigPath),
    (K8sRequestTimeout, Value.duration cfg.K8sRequestTimeout),
    (CACertFile, Value.string cfg.CACertFile),
    (CAKeyFile, Value.string cfg.CAKeyFile),
    (CAGenerate, Value.bool cfg.CAGenerate),
    (CAReuseSecret, Value.bool cfg.CAReuseSecret),
    (CACommonName, Value.string cfg.CACommonName),
    (CAValidityDuration, Value.duration cfg.CAValidityDuration),
    (CASecretName, Value.string cfg.CASecretName),
    (CASecretNamespace, Value.string cfg.CASecretNamespace),
    (HubbleServerCertGenerate, Value.bool cfg.HubbleServerCertGenerate),
    (HubbleServerCertCommonName, Value.string cfg.HubbleServerCertCommonName),
    (HubbleServerCertValidityDuration, Value.duration cfg.HubbleServerCertValidityDuration),
    (HubbleServerCertSecretName, Value.string cfg.HubbleServerCertSecretName),
    (HubbleServerCertSecretNamespace, Value.string cfg.HubbleServerCertSecretNamespace),
    (HubbleMetricsServerCertGenerate, Value.bool cfg.HubbleMetricsServerCertGenerate),
    (HubbleMetricsServerCertCommonName, Value.string cfg.HubbleMetricsServerCertCommonName),
    (HubbleMetricsServerCertValidityDuration, Value.duration cfg.HubbleMetricsServerCertValidityDuration),
    (HubbleMetricsServerCertSecretName, Value.string cfg.HubbleMetricsServerCertSecretName),
    (HubbleMetricsServerCertSecretNamespace, Value.string cfg.HubbleMetricsServerCertSecretNamespace),
    (HubbleRelayServerCertGenerate, Value.bool cfg.HubbleRelayServerCertGenerate),
    (HubbleRelayServerCertCommonName, Value.string cfg.HubbleRelayServerCertCommonName),
    (HubbleRelayServerCertValidityDuration, Value.duration cfg.HubbleRelayServerCertValidityDuration),
    (HubbleRelayServerCertSecretName, Value.string cfg.HubbleRelayServerCertSecretName),
    (HubbleRelayServerCertSecretNamespace, Value.string cfg.HubbleRelayServerCertSecretNamespace),
    (HubbleRelayClientCertGenerate, Value.bool cfg.HubbleRelayClientCertGenerate),
    (HubbleRelayClientCertCommonName, Value.string cfg.HubbleRelayClientCertCommonName),
    (HubbleRelayClientCertValidityDuration, Value.duration cfg.HubbleRelayClientCertValidityDuration),
    (HubbleRelayClientCertSecretName, Value.string cfg.HubbleRelayClientCertSecretName),
    (HubbleRelayClientCertSecretNamespace, Value.string cfg.HubbleRelayClientCertSecretNamespace),
    (ClustermeshApiserverServerCertGenerate, Value.bool cfg.ClustermeshApiserverServerCertGenerate),
    (ClustermeshApiserverServerCertCommonName, Value.string cfg.ClustermeshApiserverServerCertCommonName),
    (ClustermeshApiserverServerCertValidityDuration, Value.duration cfg.ClustermeshApiserverServerCertValidityDuration),
    (ClustermeshApiserverServerCertSecretName, Value.string cfg.ClustermeshApiserverServerCertSecretName),
    (ClustermeshApiserverServerCertSANs, Value.stringSlice cfg.ClustermeshApiserverServerCertSANs),
    (ClustermeshApiserverAdminCertGenerate, Value.bool cfg.ClustermeshApiserverAdminCertGenerate),
    (ClustermeshApiserverAdminCertCommonName, Value.string cfg.ClustermeshApiserverAdminCertCommonName),
    (ClustermeshApiserverAdminCertValidityDuration, Value.duration cfg.ClustermeshApiserverAdminCertValidityDuration),
    (ClustermeshApiserverAdminCertSecretName, Value.string cfg.ClustermeshApiserverAdminCertSecretName),
    (ClustermeshApiserverClientCertGenerate, Value.bool cfg.ClustermeshApiserverClientCertGenerate),
    (ClustermeshApiserverClientCertCommonName, Value.string cfg.ClustermeshApiserverClientCertCommonName),
    (ClustermeshApiserverClientCertValidityDuration, Value.duration cfg.ClustermeshApiserverClientCertValidityDuration),
    (ClustermeshApiserverClientCertSecretName, Value.string cfg.ClustermeshApiserverClientCertSecretName),
    (ClustermeshApiserverRemoteCertGenerate, Value.bool cfg.ClustermeshApiserverRemoteCertGenerate),
    (ClustermeshApiserverRemoteCertCommonName, Value.string cfg.ClustermeshApiserverRemoteCertCommonName),
    (ClustermeshApiserverRemoteCertValidityDuration, Value.duration cfg.ClustermeshApiserverRemoteCertValidityDuration),
    (ClustermeshApiserverRemoteCertSecretName, Value.string cfg.ClustermeshApiserverRemoteCertSecretName) ]

/-! ## The keys read from the source -/

/-- The const block (config.go, lines 16-176): the 49 key constants, in the
order of their declaration. -/
def allKeys : List String :=
  [Debug,
   CiliumNamespace,
   K8sKubeConfigPath,
   K8sRequestTimeout,
   CACertFile,
   CAKeyFile,
   CAGenerate,
   CAReuseSecret,
   CACommonName,
   CAValidityDuration,
   CASecretName,
   CASecretNamespace,
   HubbleServerCertGenerate,
   HubbleServerCertCommonName,
   HubbleServerCertValidityDuration,
   HubbleServerCertSecretName,
   HubbleServerCertSecretNamespace,
   HubbleMetricsServerCertGenerate,
   HubbleMetricsServerCertCommonName,
   HubbleMetricsServerCertValidityDuration,
   HubbleMetricsServerCertSecretName,
   HubbleMetricsServerCertSecretNamespace,
   HubbleRelayServerCertGenerate,
   HubbleRelayServerCertCommonName,
   HubbleRelayServerCertValidityDuration,
   HubbleRelayServerCertSecretName,
   HubbleRelayServerCertSecretNamespace,
   HubbleRelayClientCertGenerate,
   HubbleRelayClientCertCommonName,
   HubbleRelayClientCertValidityDuration,
   HubbleRelayClientCertSecretName,
   HubbleRelayClientCertSecretNamespace,
   ClustermeshApiserverServerCertGenerate,
   ClustermeshApiserverServerCertCommonName,
   ClustermeshApiserverServerCertValidityDuration,
   ClustermeshApiserverServerCertSecretName,
   ClustermeshApiserverServerCertSANs,
   ClustermeshApiserverAdminCertGenerate,
   ClustermeshApiserverAdminCertCommonName,
   ClustermeshApiserverAdminCertValidityDuration,
   ClustermeshApiserverAdminCertSecretName,
   ClustermeshApiserverClientCertGenerate,
   ClustermeshApiserverClientCertCommonName,
   ClustermeshApiserverClientCertValidityDuration,
   ClustermeshApiserverClientCertSecretName,
   ClustermeshApiserverRemoteCertGenerate,
   ClustermeshApiserverRemoteCertCommonName,
   ClustermeshApiserverRemoteCertValidityDuration,
   ClustermeshApiserverRemoteCertSecretName]

/-- A value obtained from the source, with the keys that were passed to the
accessors of the source to obtain it, in the order of the calls. -/
structure Traced (α : Type) where
  val : α
  reads : List String

/-- A value obtained without a call to the source. -/
def Traced.pure {α : Type} (a : α) : Traced α := ⟨a, []⟩

/-- Sequencing: the calls of the first computation, then those of the second. -/
def Traced.bind {α β : Type} (x : Traced α) (f : α → Traced β) : Traced β :=
  ⟨(f x.val).val, x.reads ++ (f x.val).reads⟩

instance : Monad Traced where
  pure := Traced.pure
  bind := Traced.bind

/-- The call `vp.GetBool(key)`, recorded. -/
def Viper.GetBoolT (vp : Viper) (key : String) : Traced Bool := ⟨vp.GetBool key, [key]⟩

/-- The call `vp.GetString(key)`, recorded. -/
def Viper.GetStringT (vp : Viper) (key : String) : Traced String := ⟨vp.GetString key, [key]⟩

/-- The call `vp.GetDuration(key)`, recorded. -/
def Viper.GetDurationT (vp : Viper) (key : String) : Traced Int := ⟨vp.GetDuration key, [key]⟩

/-- The call `vp.GetStringSlice(key)`, recorded. -/
def Viper.GetStringSliceT (vp : Viper) (key : String) : Traced (List String) :=
  ⟨vp.GetStringSlice key, [key]⟩

/-- The Go function `getStringWithFallback` with its calls recorded: `key` is
always read, `fallbackKey` only when the value at `key` is empty. -/
def getStringWithFallbackT (vp : Viper) (key fallbackKey : String) : Traced String := do
  let value ← vp.GetStringT key
  if value ≠ "" then pure value else vp.GetStringT fallbackKey

/-- The Go method `PopulateFrom` with its calls recorded: the right-hand sides
are evaluated in the order of the source, each value going to the field it is
assigned to. -/
def CertGenConfig.PopulateFromT (c : CertGenConfig) (vp : Viper) : Traced CertGenConfig := do
  let vDebug ← vp.GetBoolT option.Debug
  let vK8sKubeConfigPath ← vp.GetStringT option.K8sKubeConfigPath
  let vK8sRequestTimeout ← vp.GetDurationT option.K8sRequestTimeout
  let vCACertFile ← vp.GetStringT option.CACertFile
  let vCAKeyFile ← vp.GetStringT option.CAKeyFile
  let vCAGenerate ← vp.GetBoolT option.CAGenerate
  let vCAReuseSecret ← vp.GetBoolT option.CAReuseSecret
  let vCACommonName ← vp.GetStringT option.CACommonName
  let vCAValidityDuration ← vp.GetDurationT option.CAValidityDuration
  let vCASecretName ← vp.GetStringT option.CASecretName
  let vCASecretNamespace ←
    getStringWithFallbackT vp option.CASecretNamespace option.CiliumNamespace
  let vHubbleRelayClientCertGenerate ← vp.GetBoolT option.HubbleRelayClientCertGenerate
  let vHubbleRelayClientCertCommonName ← vp.GetStringT option.HubbleRelayClientCertCommonName
  let vHubbleRelayClientCertValidityDuration ←
    vp.GetDurationT option.HubbleRelayClientCertValidityDuration
  let vHubbleRelayClientCertSecretName ← vp.GetStringT option.HubbleRelayClientCertSecretName
  let vHubbleRelayClientCertSecretNamespace ←
    getStringWithFallbackT vp option.HubbleRelayClientCertSecretNamespace option.CiliumNamespace
  let vHubbleRelayServerCertGenerate ← vp.GetBoolT option.HubbleRelayServerCertGenerate
  let vHubbleRelayServerCertCommonName ← vp.GetStringT option.HubbleRelayServerCertCommonName
  let vHubbleRelayServerCertValidityDuration ←
    vp.GetDurationT option.HubbleRelayServerCertValidityDuration
  let vHubbleRelayServerCertSecretName ← vp.GetStringT option.HubbleRelayServerCertSecretName
  let vHubbleRelayServerCertSecretNamespace ←
    getStringWithFallbackT vp option.HubbleRelayServerCertSecretNamespace option.CiliumNamespace
  let vHubbleServerCertGenerate ← vp.GetBoolT option.HubbleServerCertGenerate
  let vHubbleServerCertCommonName ← vp.GetStringT option.HubbleServerCertCommonName
  let vHubbleServerCertValidityDuration ← vp.GetDurationT option.HubbleServerCertValidityDuration
  let vHubbleServerCertSecretName ← vp.GetStringT option.HubbleServerCertSecretName
  let vHubbleServerCertSecretNamespace ←
    getStringWithFallbackT vp option.HubbleServerCertSecretNamespace option.CiliumNamespace
  let vHubbleMetricsServerCertGenerate ← vp.GetBoolT option.HubbleMetricsServerCertGenerate
  let vHubbleMetricsServerCertCommonName ← vp.GetStringT option.HubbleMetricsServerCertCommonName
  let vHubbleMetricsServerCertValidityDuration ←
    vp.GetDurationT option.HubbleMetricsServerCertValidityDuration
  let vHubbleMetricsServerCertSecretName ← vp.GetStringT option.HubbleMetricsServerCertSecretName
  let vHubbleMetricsServerCertSecretNamespace ←
    getStringWithFallbackT vp option.HubbleMetricsServerCertSecretNamespace option.CiliumNamespace
  let vCiliumNamespace ← vp.GetStringT option.CiliumNamespace
  let vClustermeshApiserverServerCertGenerate ←
    vp.GetBoolT option.ClustermeshApiserverServerCertGenerate
  let vClustermeshApiserverServerCertCommonName ←
    vp.GetStringT option.ClustermeshApiserverServerCertCommonName
  let vClustermeshApiserverServerCertValidityDuration ←
    vp.GetDurationT option.ClustermeshApiserverServerCertValidityDuration
  let vClustermeshApiserverServerCertSecretName ←
    vp.GetStringT option.ClustermeshApiserverServerCertSecretName
  let vClustermeshApiserverServerCertSANs ←
    vp.GetStringSliceT option.ClustermeshApiserverServerCertSANs
  let vClustermeshApiserverAdminCertGenerate ←
    vp.GetBoolT option.ClustermeshApiserverAdminCertGenerate
  let vClustermeshApiserverAdminCertCommonName ←
    vp.GetStringT option.ClustermeshApiserverAdminCertCommonName
  let vClustermeshApiserverAdminCertValidityDuration ←
    vp.GetDurationT option.ClustermeshApiserverAdminCertValidityDuration
  let vClustermeshApiserverAdminCertSecretName ←
    vp.GetStringT option.ClustermeshApiserverAdminCertSecretName
  let vClustermeshApiserverClientCertGenerate ←
    vp.GetBoolT option.ClustermeshApiserverClientCertGenerate
  let vClustermeshApiserverClientCertCommonName ←
    vp.GetStringT option.ClustermeshApiserverClientCertCommonName
  let vClustermeshApiserverClientCertValidityDuration ←
    vp.GetDurationT option.ClustermeshApiserverClientCertValidityDuration
  let vClustermeshApiserverClientCertSecretName ←
    vp.GetStringT option.ClustermeshApiserverClientCertSecretName
  let vClustermeshApiserverRemoteCertGenerate ←
    vp.GetBoolT option.ClustermeshApiserverRemoteCertGenerate
  let vClustermeshApiserverRemoteCertCommonName ←
    vp.GetStringT option.ClustermeshApiserverRemoteCertCommonName
  let vClustermeshApiserverRemoteCertValidityDuration ←
    vp.GetDurationT option.ClustermeshApiserverRemoteCertValidityDuration
  let vClustermeshApiserverRemoteCertSecretName ←
    vp.GetStringT option.ClustermeshApiserverRemoteCertSecretName
  pure { c with
    Debug := vDebug,
    K8sKubeConfigPath := vK8sKubeConfigPath,
    K8sRequestTimeout := vK8sRequestTimeout,
    CACertFile := vCACertFile,
    CAKeyFile := vCAKeyFile,
    CAGenerate := vCAGenerate,
    CAReuseSecret := vCAReuseSecret,
    CACommonName := vCACommonName,
    CAValidityDuration := vCAValidityDuration,
    CASecretName := vCASecretName,
    CASecretNamespace := vCASecretNamespace,
    HubbleRelayClientCertGenerate := vHubbleRelayClientCertGenerate,
    HubbleRelayClientCertCommonName := vHubbleRelayClientCertCommonName,
    HubbleRelayClientCertValidityDuration := vHubbleRelayClientCertValidityDuration,
    HubbleRelayClientCertSecretName := vHubbleRelayClientCertSecretName,
    HubbleRelayClientCertSecretNamespace := vHubbleRelayClientCertSecretNamespace,
    HubbleRelayServerCertGenerate := vHubbleRelayServerCertGenerate,
    HubbleRelayServerCertCommonName := vHubbleRelayServerCertCommonName,
    HubbleRelayServerCertValidityDuration := vHubbleRelayServerCertValidityDuration,
    HubbleRelayServerCertSecretName := vHubbleRelayServerCertSecretName,
    HubbleRelayServerCertSecretNamespace := vHubbleRelayServerCertSecretNamespace,
    HubbleServerCertGenerate := vHubbleServerCertGenerate,
    HubbleServerCertCommonName := vHubbleServerCertCommonName,
    HubbleServerCertValidityDuration := vHubbleServerCertValidityDuration,
    HubbleServerCertSecretName := vHubbleServerCertSecretName,
    HubbleServerCertSecretNamespace := vHubbleServerCertSecretNamespace,
    HubbleMetricsServerCertGenerate := vHubbleMetricsServerCertGenerate,
    HubbleMetricsServerCertCommonName := vHubbleMetricsServerCertCommonName,
    HubbleMetricsServerCertValidityDuration := vHubbleMetricsServerCertValidityDuration,
    HubbleMetricsServerCertSecretName := vHubbleMetricsServerCertSecretName,
    HubbleMetricsServerCertSecretNamespace := vHubbleMetricsServerCertSecretNamespace,
    CiliumNamespace := vCiliumNamespace,
    ClustermeshApiserverServerCertGenerate := vClustermeshApiserverServerCertGenerate,
    ClustermeshApiserverServerCertCommonName := vClustermeshApiserverServerCertCommonName,
    ClustermeshApiserverServerCertValidityDuration := vClustermeshApiserverServerCertValidityDuration,
    ClustermeshApiserverServerCertSecretName := vClustermeshApiserverServerCertSecretName,
    ClustermeshApiserverServerCertSANs := vClustermeshApiserverServerCertSANs,
    ClustermeshApiserverAdminCertGenerate := vClustermeshApiserverAdminCertGenerate,
    ClustermeshApiserverAdminCertCommonName := vClustermeshApiserverAdminCertCommonName,
    ClustermeshApiserverAdminCertValidityDuration := vClustermeshApiserverAdminCertValidityDuration,
    ClustermeshApiserverAdminCertSecretName := vClustermeshApiserverAdminCertSecretName,
    ClustermeshApiserverClientCertGenerate := vClustermeshApiserverClientCertGenerate,
    ClustermeshApiserverClientCertCommonName := vClustermeshApiserverClientCertCommonName,
    ClustermeshApiserverClientCertValidityDuration := vClustermeshApiserverClientCertValidityDuration,
    ClustermeshApiserverClientCertSecretName := vClustermeshApiserverClientCertSecretName,
    ClustermeshApiserverRemoteCertGenerate := vClustermeshApiserverRemoteCertGenerate,
    ClustermeshApiserverRemoteCertCommonName := vClustermeshApiserverRemoteCertCommonName,
    ClustermeshApiserverRemoteCertValidityDuration := vClustermeshApiserverRemoteCertValidityDuration,
    ClustermeshApiserverRemoteCertSecretName := vClustermeshApiserverRemoteCertSecretName }

/-! ## Nil and empty slices -/

/-- A Go value of type `[]string`: the nil slice, or a slice that is not nil,
with its elements (possibly none). -/
inductive StringSlice where
  | nil
  | slice (elems : List String)

/-- The elements of a slice value in order; the nil slice has none. This is
what the embedding of `[]string` as `List String` keeps of a slice value. -/
def StringSlice.elems : StringSlice → List String
  | StringSlice.nil => []
  | StringSlice.slice l => l

/-- The accessors of `*viper.Viper` with `GetStringSlice` returning Go slice
values, so that a nil result and an empty result are told apart. -/
structure RawViper where
  GetBool : String → Bool
  GetString : String → String
  GetDuration : String → Int
  GetStringSlice : String → StringSlice

/-- The source as `PopulateFrom` above reads it: every slice result by its
elements. -/
def RawViper.toViper (vp : RawViper) : Viper where
  GetBool := vp.GetBool
  GetString := vp.GetString
  GetDuration := vp.GetDuration
  GetStringSlice k := (vp.GetStringSlice k).elems

/-- Line 396 of `PopulateFrom` on Go slice values: the value assigned to
`c.ClustermeshApiserverServerCertSANs` is the result of `vp.GetStringSlice` at
the key, as it is returned; no statement of the method replaces a nil result. -/
def PopulateFromSANs (vp : RawViper) : StringSlice :=
  vp.GetStringSlice ClustermeshApiserverServerCertSANs

/-- The accessors of a Viper instance in which no key is set. The Viper library
is a third-party dependency, not part of this repository; for a key that is not
set its accessors return the zero value of their result type, which for
`GetStringSlice` is the nil slice. -/
def RawViper.unset : RawViper where
  GetBool _ := false
  GetString _ := ""
  GetDuration _ := 0
  GetStringSlice _ := StringSlice.nil

/-! ## Equality of configurations -/

/-- Two configurations that agree on each of the 49 fields are equal. -/
theorem CertGenConfig.eq_of_fields (x y : CertGenConfig)
    (h1 : x.Debug = y.Debug)
    (h2 : x.CiliumNamespace = y.CiliumNamespace)
    (h3 : x.K8sKubeConfigPath = y.K8sKubeConfigPath)
    (h4 : x.K8sRequestTimeout = y.K8sRequestTimeout)
    (h5 : x.CACertFile = y.CACertFile)
    (h6 : x.CAKeyFile = y.CAKeyFile)
    (h7 : x.CAGenerate = y.CAGenerate)
    (h8 : x.CAReuseSecret = y.CAReuseSecret)
    (h9 : x.CACommonName = y.CACommonName)
    (h10 : x.CAValidityDuration = y.CAValidityDuration)
    (h11 : x.CASecretName = y.CASecretName)
    (h12 : x.CASecretNamespace = y.CASecretNamespace)
    (h13 : x.HubbleRelayClientCertGenerate = y.HubbleRelayClientCertGenerate)
    (h14 : x.HubbleRelayClientCertCommonName = y.HubbleRelayClientCertCommonName)
    (h15 : x.HubbleRelayClientCertValidityDuration = y.HubbleRelayClientCertValidityDuration)
    (h16 : x.HubbleRelayClientCertSecretName = y.HubbleRelayClientCertSecretName)
    (h17 : x.HubbleRelayClientCertSecretNamespace = y.HubbleRelayClientCertSecretNamespace)
    (h18 : x.HubbleRelayServerCertGenerate = y.HubbleRelayServerCertGenerate)
    (h19 : x.HubbleRelayServerCertCommonName = y.HubbleRelayServerCertCommonName)
    (h20 : x.HubbleRelayServerCertValidityDuration = y.HubbleRelayServerCertValidityDuration)
    (h21 : x.HubbleRelayServerCertSecretName = y.HubbleRelayServerCertSecretName)
    (h22 : x.HubbleRelayServerCertSecretNamespace = y.HubbleRelayServerCertSecretNamespace)
    (h23 : x.HubbleServerCertGenerate = y.HubbleServerCertGenerate)
    (h24 : x.HubbleServerCertCommonName = y.HubbleServerCertCommonName)
    (h25 : x.HubbleServerCertValidityDuration = y.HubbleServerCertValidityDuration)
    (h26 : x.HubbleServerCertSecretName = y.HubbleServerCertSecretName)
    (h27 : x.HubbleServerCertSecretNamespace = y.HubbleServerCertSecretNamespace)
    (h28 : x.HubbleMetricsServerCertGenerate = y.HubbleMetricsServerCertGenerate)
    (h29 : x.HubbleMetricsServerCertCommonName = y.HubbleMetricsServerCertCommonName)
    (h30 : x.HubbleMetricsServerCertValidityDuration = y.HubbleMetricsServerCertValidityDuration)
    (h31 : x.HubbleMetricsServerCertSecretName = y.HubbleMetricsServerCertSecretName)
    (h32 : x.HubbleMetricsServerCertSecretNamespace = y.HubbleMetricsServerCertSecretNamespace)
    (h33 : x.ClustermeshApiserverServerCertGenerate = y.ClustermeshApiserverServerCertGenerate)
    (h34 : x.ClustermeshApiserverServerCertCommonName = y.ClustermeshApiserverServerCertCommonName)
    (h35 : x.ClustermeshApiserverServerCertValidityDuration = y.ClustermeshApiserverServerCertValidityDuration)
    (h36 : x.ClustermeshApiserverServerCertSecretName = y.ClustermeshApiserverServerCertSecretName)
    (h37 : x.ClustermeshApiserverServerCertSANs = y.ClustermeshApiserverServerCertSANs)
    (h38 : x.ClustermeshApiserverAdminCertGenerate = y.ClustermeshApiserverAdminCertGenerate)
    (h39 : x.ClustermeshApiserverAdminCertCommonName = y.ClustermeshApiserverAdminCertCommonName)
    (h40 : x.ClustermeshApiserverAdminCertValidityDuration = y.ClustermeshApiserverAdminCertValidityDuration)
    (h41 : x.ClustermeshApiserverAdminCertSecretName = y.ClustermeshApiserverAdminCertSecretName)
    (h42 : x.ClustermeshApiserverClientCertGenerate = y.ClustermeshApiserverClientCertGenerate)
    (h43 : x.ClustermeshApiserverClientCertCommonName = y.ClustermeshApiserverClientCertCommonName)
    (h44 : x.ClustermeshApiserverClientCertValidityDuration = y.ClustermeshApiserverClientCertValidityDuration)
    (h45 : x.ClustermeshApiserverClientCertSecretName = y.ClustermeshApiserverClientCertSecretName)
    (h46 : x.ClustermeshApiserverRemoteCertGenerate = y.ClustermeshApiserverRemoteCertGenerate)
    (h47 : x.ClustermeshApiserverRemoteCertCommonName = y.ClustermeshApiserverRemoteCertCommonName)
    (h48 : x.ClustermeshApiserverRemoteCertValidityDuration = y.ClustermeshApiserverRemoteCertValidityDuration)
    (h49 : x.ClustermeshApiserverRemoteCertSecretName = y.ClustermeshApiserverRemoteCertSecretName) :
    x = y := by
  cases x
  cases y
  simp only at *
  subst_vars
  rfl

/-! ## The namespace fallback -/

/-- What `getStringWithFallback` returns when the value at `key` is non-empty. -/
theorem getStringWithFallback_of_ne (vp : Viper) (key fallbackKey : String)
    (h : vp.GetString key ≠ "") :
    getStringWithFallback vp key fallbackKey = vp.GetString key := by
  simp [getStringWithFallback, h]

/-- What `getStringWithFallback` returns when the value at `key` is empty. -/
theorem getStringWithFallback_of_eq (vp : Viper) (key fallbackKey : String)
    (h : vp.GetString key = "") :
    getStringWithFallback vp key fallbackKey = vp.GetString fallbackKey := by
  simp [getStringWithFallback, h]

/-- C1: a non-empty value at a slot's namespace key is the slot's resolved
secret namespace, for each of the five namespaced slots, whatever the source
holds at `cilium-namespace` and whatever the receiver held before. -/
theorem slot_namespace_wins (c : CertGenConfig) (vp : Viper) :
    (vp.GetString CASecretNamespace ≠ "" →
      (c.PopulateFrom vp).CASecretNamespace = vp.GetString CASecretNamespace) ∧
    (vp.GetString HubbleServerCertSecretNamespace ≠ "" →
      (c.PopulateFrom vp).HubbleServerCertSecretNamespace =
        vp.GetString HubbleServerCertSecretNamespace) ∧
    (vp.GetString HubbleMetricsServerCertSecretNamespace ≠ "" →
      (c.PopulateFrom vp).HubbleMetricsServerCertSecretNamespace =
        vp.GetString HubbleMetricsServerCertSecretNamespace) ∧
    (vp.GetString HubbleRelayServerCertSecretNamespace ≠ "" →
      (c.PopulateFrom vp).HubbleRelayServerCertSecretNamespace =
        vp.GetString HubbleRelayServerCertSecretNamespace) ∧
    (vp.GetString HubbleRelayClientCertSecretNamespace ≠ "" →
      (c.PopulateFrom vp).HubbleRelayClientCertSecretNamespace =
        vp.GetString HubbleRelayClientCertSecretNamespace) :=
  ⟨fun h => getStringWithFallback_of_ne vp _ _ h,
   fun h => getStringWithFallback_of_ne vp _ _ h,
   fun h => getStringWithFallback_of_ne vp _ _ h,
   fun h => getStringWithFallback_of_ne vp _ _ h,
   fun h => getStringWithFallback_of_ne vp _ _ h⟩

/-- The scenario of C1: `hubble-server-cert-secret-namespace` set to
`hubble-ns` and `cilium-namespace` set to `kube-system` resolve the Hubble
server slot to `hubble-ns`. -/
theorem slot_namespace_wins_witness :
    (Config.PopulateFrom (Viper.ofSettings
        [("hubble-server-cert-secret-namespace", Value.string "hubble-ns"),
         ("cilium-namespace", Value.string "kube-system")])).HubbleServerCertSecretNamespace
      = "hubble-ns" :=
  (slot_namespace_wins Config (Viper.ofSettings
        [("hubble-server-cert-secret-namespace", Value.string "hubble-ns"),
         ("cilium-namespace", Value.string "kube-system")])).2.1 (by decide)

/-- C2: an empty value at a slot's namespace key (the key absent, or set to the
empty string) resolves the slot's secret namespace to the `CiliumNamespace`
field of the same result, which is the source's value at `cilium-namespace`,
empty or not. -/
theorem empty_slot_namespace_defaults (c : CertGenConfig) (vp : Viper) :
    (c.PopulateFrom vp).CiliumNamespace = vp.GetString CiliumNamespace ∧
    (vp.GetString CASecretNamespace = "" →
      (c.PopulateFrom vp).CASecretNamespace =
        (c.PopulateFrom vp).CiliumNamespace) ∧
    (vp.GetString HubbleServerCertSecretNamespace = "" →
      (c.PopulateFrom vp).HubbleServerCertSecretNamespace =
        (c.PopulateFrom vp).CiliumNamespace) ∧
    (vp.GetString HubbleMetricsServerCertSecretNamespace = "" →
      (c.PopulateFrom vp).HubbleMetricsServerCertSecretNamespace =
        (c.PopulateFrom vp).CiliumNamespace) ∧
    (vp.GetString HubbleRelayServerCertSecretNamespace = "" →
      (c.PopulateFrom vp).HubbleRelayServerCertSecretNamespace =
        (c.PopulateFrom vp).CiliumNamespace) ∧
    (vp.GetString HubbleRelayClientCertSecretNamespace = "" →
      (c.PopulateFrom vp).HubbleRelayClientCertSecretNamespace =
        (c.PopulateFrom vp).CiliumNamespace) :=
  ⟨rfl,
   fun h => getStringWithFallback_of_eq vp _ _ h,
   fun h => getStringWithFallback_of_eq vp _ _ h,
   fun h => getStringWithFallback_of_eq vp _ _ h,
   fun h => getStringWithFallback_of_eq vp _ _ h,
   fun h => getStringWithFallback_of_eq vp _ _ h⟩

/-- The two ways of C2 to hold an empty slot namespace: with
`ca-secret-namespace` absent and with `ca-secret-namespace` set to the empty
string, `cilium-namespace` being `kube-system`, the CA slot resolves to
`kube-system`. -/
theorem empty_slot_namespace_defaults_witness :
    (Config.PopulateFrom (Viper.ofSettings
        [("cilium-namespace", Value.string "kube-system")])).CASecretNamespace
      = "kube-system" ∧
    (Config.PopulateFrom (Viper.ofSettings
        [("ca-secret-namespace", Value.string ""),
         ("cilium-namespace", Value.string "kube-system")])).CASecretNamespace
      = "kube-system" :=
  ⟨(empty_slot_namespace_defaults Config (Viper.ofSettings
        [("cilium-namespace", Value.string "kube-system")])).2.1 (by decide),
   (empty_slot_namespace_defaults Config (Viper.ofSettings
        [("ca-secret-namespace", Value.string ""),
         ("cilium-namespace", Value.string "kube-system")])).2.1 (by decide)⟩

/-- C3, as stated, fails: populated from the source that holds no key, the
five secret namespaces are not all non-empty (each of them is empty). -/
theorem slot_namespace_nonempty_counterexample :
    ¬ ((Config.PopulateFrom (Viper.ofSettings [])).CASecretNamespace ≠ "" ∧
       (Config.PopulateFrom (Viper.ofSettings [])).HubbleServerCertSecretNamespace ≠ "" ∧
       (Config.PopulateFrom (Viper.ofSettings [])).HubbleMetricsServerCertSecretNamespace ≠ "" ∧
       (Config.PopulateFrom (Viper.ofSettings [])).HubbleRelayServerCertSecretNamespace ≠ "" ∧
       (Config.PopulateFrom (Viper.ofSettings [])).HubbleRelayClientCertSecretNamespace ≠ "") := by
  decide

/-- C3, amended: when the source's value at `cilium-namespace` is non-empty, or
each of the five slot namespace keys holds a non-empty value, every slot's
secret namespace is non-empty after `PopulateFrom`. -/
theorem slot_namespace_nonempty_of_default (c : CertGenConfig) (vp : Viper)
    (h : vp.GetString CiliumNamespace ≠ "" ∨
      (vp.GetString CASecretNamespace ≠ "" ∧
       vp.GetString HubbleServerCertSecretNamespace ≠ "" ∧
       vp.GetString HubbleMetricsServerCertSecretNamespace ≠ "" ∧
       vp.GetString HubbleRelayServerCertSecretNamespace ≠ "" ∧
       vp.GetString HubbleRelayClientCertSecretNamespace ≠ "")) :
    (c.PopulateFrom vp).CASecretNamespace ≠ "" ∧
    (c.PopulateFrom vp).HubbleServerCertSecretNamespace ≠ "" ∧
    (c.PopulateFrom vp).HubbleMetricsServerCertSecretNamespace ≠ "" ∧
    (c.PopulateFrom vp).HubbleRelayServerCertSecretNamespace ≠ "" ∧
    (c.PopulateFrom vp).HubbleRelayClientCertSecretNamespace ≠ "" := by
  simp only [CertGenConfig.PopulateFrom, getStringWithFallback]
  rcases h with h | ⟨h1, h2, h3, h4, h5⟩
  · refine ⟨?_, ?_, ?_, ?_, ?_⟩ <;> split_ifs <;> assumption
  · simp [h1, h2, h3, h4, h5]

/-- The amended C3 at the source that holds only `cilium-namespace`, set to
`kube-system`. -/
theorem slot_namespace_nonempty_of_default_witness :
    (Config.PopulateFrom (Viper.ofSettings
        [("cilium-namespace", Value.string "kube-system")])).CASecretNamespace ≠ "" ∧
    (Config.PopulateFrom (Viper.ofSettings
        [("cilium-namespace", Value.string "kube-system")])).HubbleServerCertSecretNamespace ≠ "" ∧
    (Config.PopulateFrom (Viper.ofSettings
        [("cilium-namespace", Value.string "kube-system")])).HubbleMetricsServerCertSecretNamespace ≠ "" ∧
    (Config.PopulateFrom (Viper.ofSettings
        [("cilium-namespace", Value.string "kube-system")])).HubbleRelayServerCertSecretNamespace ≠ "" ∧
    (Config.PopulateFrom (Viper.ofSettings
        [("cilium-namespace", Value.string "kube-system")])).HubbleRelayClientCertSecretNamespace ≠ "" :=
  slot_namespace_nonempty_of_default Config
    (Viper.ofSettings [("cilium-namespace", Value.string "kube-system")])
    (Or.inl (by decide))

/-! ## The direct fields -/

/-- C5: each of the 44 fields other than the five secret namespaces is the
source's accessor of the field's type at the key constant of the field's name:
11 by `GetBool`, 22 by `GetString`, 10 by `GetDuration`, and
`ClustermeshApiserverServerCertSANs` by `GetStringSlice`. -/
theorem populate_reads_own_key (c : CertGenConfig) (vp : Viper) :
    (c.PopulateFrom vp).Debug =
      vp.GetBool Debug ∧
    (c.PopulateFrom vp).K8sKubeConfigPath =
      vp.GetString K8sKubeConfigPath ∧
    (c.PopulateFrom vp).K8sRequestTimeout =
      vp.GetDuration K8sRequestTimeout ∧
    (c.PopulateFrom vp).CACertFile =
      vp.GetString CACertFile ∧
    (c.PopulateFrom vp).CAKeyFile =
      vp.GetString CAKeyFile ∧
    (c.PopulateFrom vp).CAGenerate =
      vp.GetBool CAGenerate ∧
    (c.PopulateFrom vp).CAReuseSecret =
      vp.GetBool CAReuseSecret ∧
    (c.PopulateFrom vp).CACommonName =
      vp.GetString CACommonName ∧
    (c.PopulateFrom vp).CAValidityDuration =
      vp.GetDuration CAValidityDuration ∧
    (c.PopulateFrom vp).CASecretName =
      vp.GetString CASecretName ∧
    (c.PopulateFrom vp).HubbleRelayClientCertGenerate =
      vp.GetBool HubbleRelayClientCertGenerate ∧
    (c.PopulateFrom vp).HubbleRelayClientCertCommonName =
      vp.GetString HubbleRelayClientCertCommonName ∧
    (c.PopulateFrom vp).HubbleRelayClientCertValidityDuration =
      vp.GetDuration HubbleRelayClientCertValidityDuration ∧
    (c.PopulateFrom vp).HubbleRelayClientCertSecretName =
      vp.GetString HubbleRelayClientCertSecretName ∧
    (c.PopulateFrom vp).HubbleRelayServerCertGenerate =
      vp.GetBool HubbleRelayServerCertGenerate ∧
    (c.PopulateFrom vp).HubbleRelayServerCertCommonName =
      vp.GetString HubbleRelayServerCertCommonName ∧
    (c.PopulateFrom vp).HubbleRelayServerCertValidityDuration =
      vp.GetDuration HubbleRelayServerCertValidityDuration ∧
    (c.PopulateFrom vp).HubbleRelayServerCertSecretName =
      vp.GetString HubbleRelayServerCertSecretName ∧
    (c.PopulateFrom vp).HubbleServerCertGenerate =
      vp.GetBool HubbleServerCertGenerate ∧
    (c.PopulateFrom vp).HubbleServerCertCommonName =
      vp.GetString HubbleServerCertCommonName ∧
    (c.PopulateFrom vp).HubbleServerCertValidityDuration =
      vp.GetDuration HubbleServerCertValidityDuration ∧
    (c.PopulateFrom vp).HubbleServerCertSecretName =
      vp.GetString HubbleServerCertSecretName ∧
    (c.PopulateFrom vp).HubbleMetricsServerCertGenerate =
      vp.GetBool HubbleMetricsServerCertGenerate ∧
    (c.PopulateFrom vp).HubbleMetricsServerCertCommonName =
      vp.GetString HubbleMetricsServerCertCommonName ∧
    (c.PopulateFrom vp).HubbleMetricsServerCertValidityDuration =
      vp.GetDuration HubbleMetricsServerCertValidityDuration ∧
    (c.PopulateFrom vp).HubbleMetricsServerCertSecretName =
      vp.GetString HubbleMetricsServerCertSecretName ∧
    (c.PopulateFrom vp).CiliumNamespace =
      vp.GetString CiliumNamespace ∧
    (c.PopulateFrom vp).ClustermeshApiserverServerCertGenerate =
      vp.GetBool ClustermeshApiserverServerCertGenerate ∧
    (c.PopulateFrom vp).ClustermeshApiserverServerCertCommonName =
      vp.GetString ClustermeshApiserverServerCertCommonName ∧
    (c.PopulateFrom vp).ClustermeshApiserverServerCertValidityDuration =
      vp.GetDuration ClustermeshApiserverServerCertValidityDuration ∧
    (c.PopulateFrom vp).ClustermeshApiserverServerCertSecretName =
      vp.GetString ClustermeshApiserverServerCertSecretName ∧
    (c.PopulateFrom vp).ClustermeshApiserverServerCertSANs =
      vp.GetStringSlice ClustermeshApiserverServerCertSANs ∧
    (c.PopulateFrom vp).ClustermeshApiserverAdminCertGenerate =
      vp.GetBool ClustermeshApiserverAdminCertGenerate ∧
    (c.PopulateFrom vp).ClustermeshApiserverAdminCertCommonName =
      vp.GetString ClustermeshApiserverAdminCertCommonName ∧
    (c.PopulateFrom vp).ClustermeshApiserverAdminCertValidityDuration =
      vp.GetDuration ClustermeshApiserverAdminCertValidityDuration ∧
    (c.PopulateFrom vp).ClustermeshApiserverAdminCertSecretName =
      vp.GetString ClustermeshApiserverAdminCertSecretName ∧
    (c.PopulateFrom vp).ClustermeshApiserverClientCertGenerate =
      vp.GetBool ClustermeshApiserverClientCertGenerate ∧
    (c.PopulateFrom vp).ClustermeshApiserverClientCertCommonName =
      vp.GetString ClustermeshApiserverClientCertCommonName ∧
    (c.PopulateFrom vp).ClustermeshApiserverClientCertValidityDuration =
      vp.GetDuration ClustermeshApiserverClientCertValidityDuration ∧
    (c.PopulateFrom vp).ClustermeshApiserverClientCertSecretName =
      vp.GetString ClustermeshApiserverClientCertSecretName ∧
    (c.PopulateFrom vp).ClustermeshApiserverRemoteCertGenerate =
      vp.GetBool ClustermeshApiserverRemoteCertGenerate ∧
    (c.PopulateFrom vp).ClustermeshApiserverRemoteCertCommonName =
      vp.GetString ClustermeshApiserverRemoteCertCommonName ∧
    (c.PopulateFrom vp).ClustermeshApiserverRemoteCertValidityDuration =
      vp.GetDuration ClustermeshApiserverRemoteCertValidityDuration ∧
    (c.PopulateFrom vp).ClustermeshApiserverRemoteCertSecretName =
      vp.GetString ClustermeshApiserverRemoteCertSecretName := by
  simp only [CertGenConfig.PopulateFrom, and_self]

/-- C6: populated from a source whose accessors return the zero value at every
key, the configuration is the zero value `CertGenConfig{}`: every bool false,
every string (the five secret namespaces and `CiliumNamespace` included) empty,
every duration zero, the SAN list empty. `PopulateFrom` is a total function, so
there is no failure case. -/
theorem populate_empty_source (c : CertGenConfig) (vp : Viper)
    (hb : ∀ k, vp.GetBool k = false) (hs : ∀ k, vp.GetString k = "")
    (hd : ∀ k, vp.GetDuration k = 0) (hl : ∀ k, vp.GetStringSlice k = []) :
    c.PopulateFrom vp = { } := by
  simp [CertGenConfig.PopulateFrom, getStringWithFallback, hb, hs, hd, hl]

/-- C6 at the source that holds no key, from a receiver that was populated
before. -/
theorem populate_empty_source_witness :
    (Config.PopulateFrom (Viper.ofSettings
        [("debug", Value.bool true), ("cilium-namespace", Value.string "kube-system")])
      ).PopulateFrom (Viper.ofSettings []) = { } :=
  populate_empty_source _ (Viper.ofSettings [])
    (fun _ => rfl) (fun _ => rfl) (fun _ => rfl) (fun _ => rfl)

/-! ## Independence of the receiver -/

/-- C10: `PopulateFrom` assigns all 49 fields, so its result does not depend on
what the receiver held: two receivers populated from the same source are equal,
also when one was populated from another source before, and populating twice
from a source is populating once. -/
theorem populate_overwrites_receiver (c1 c2 : CertGenConfig) (vp vp' : Viper) :
    c1.PopulateFrom vp = c2.PopulateFrom vp ∧
    (c1.PopulateFrom vp').PopulateFrom vp = c2.PopulateFrom vp ∧
    (c1.PopulateFrom vp).PopulateFrom vp = c1.PopulateFrom vp :=
  ⟨rfl, rfl, rfl⟩

/-! ## Round trip through a source -/

/-- A source that returns, at `key`, what the fallback gave on `vp`, and agrees
with `vp` at `fallbackKey`, gives the same fallback result as `vp`. -/
theorem getStringWithFallback_idem (vp vp' : Viper) (key fallbackKey : String)
    (hk : vp'.GetString key = getStringWithFallback vp key fallbackKey)
    (hf : vp'.GetString fallbackKey = vp.GetString fallbackKey) :
    getStringWithFallback vp' key fallbackKey = getStringWithFallback vp key fallbackKey := by
  by_cases h : vp.GetString key = ""
  · have hk' : vp'.GetString key = vp.GetString fallbackKey := by
      rw [hk, getStringWithFallback_of_eq vp key fallbackKey h]
    by_cases h' : vp.GetString fallbackKey = ""
    · rw [getStringWithFallback_of_eq vp' key fallbackKey (hk'.trans h'), hf,
        getStringWithFallback_of_eq vp key fallbackKey h]
    · rw [getStringWithFallback_of_ne vp' key fallbackKey (by rw [hk']; exact h'), hk]
  · have hk' : vp'.GetString key = vp.GetString key := by
      rw [hk, getStringWithFallback_of_ne vp key fallbackKey h]
    rw [getStringWithFallback_of_ne vp' key fallbackKey (by rw [hk']; exact h), hk]

/-- C4: resolving is idempotent under round trip. The configuration populated
from the source that holds the fields of `c.PopulateFrom vp` under their keys
is `c.PopulateFrom vp` again, on all 49 fields, whatever the receiver. -/
theorem populate_toSource_populate (c c' : CertGenConfig) (vp : Viper) :
    c'.PopulateFrom (toSource (c.PopulateFrom vp)) = c.PopulateFrom vp := by
  apply CertGenConfig.eq_of_fields
  all_goals first
    | exact getStringWithFallback_idem vp (toSource (c.PopulateFrom vp)) _ _ rfl rfl
    | rfl

/-! ## Scenarios -/

/-- C7, as stated, fails: populated from the source in which no key is set, the
value assigned to `ClustermeshApiserverServerCertSANs` is not an empty sequence
that is never nil; it is the nil slice. -/
theorem sans_never_nil_counterexample :
    ¬ ((PopulateFromSANs RawViper.unset).elems = [] ∧
       PopulateFromSANs RawViper.unset ≠ StringSlice.nil) :=
  fun h => h.2 rfl

/-- C7, amended: for every source in which `GetStringSlice` returns the nil
slice at `clustermesh-apiserver-server-cert-sans`, as it does when the key is
not set, and whatever the other keys hold, `PopulateFrom` stores that result
unchanged: `ClustermeshApiserverServerCertSANs` is the nil slice, and as a
sequence it has no elements. -/
theorem sans_nil_when_unset (c : CertGenConfig) (vp : RawViper)
    (h : vp.GetStringSlice ClustermeshApiserverServerCertSANs = StringSlice.nil) :
    PopulateFromSANs vp = StringSlice.nil ∧
    (c.PopulateFrom vp.toViper).ClustermeshApiserverServerCertSANs = [] ∧
    (PopulateFromSANs vp).elems =
      (c.PopulateFrom vp.toViper).ClustermeshApiserverServerCertSANs := by
  have hs : (c.PopulateFrom vp.toViper).ClustermeshApiserverServerCertSANs =
      (vp.GetStringSlice ClustermeshApiserverServerCertSANs).elems := rfl
  refine ⟨h, ?_, rfl⟩
  rw [hs, h]
  rfl

/-- The amended C7 at a source that sets `clustermesh-apiserver-server-cert-generate`
and no other key. -/
theorem sans_nil_when_unset_witness :
    PopulateFromSANs
        { RawViper.unset with
          GetBool := fun k => decide (k = "clustermesh-apiserver-server-cert-generate") }
      = StringSlice.nil ∧
    (Config.PopulateFrom (RawViper.toViper
        { RawViper.unset with
          GetBool := fun k => decide (k = "clustermesh-apiserver-server-cert-generate") })
      ).ClustermeshApiserverServerCertSANs = [] ∧
    (PopulateFromSANs
        { RawViper.unset with
          GetBool := fun k => decide (k = "clustermesh-apiserver-server-cert-generate") }
      ).elems =
      (Config.PopulateFrom (RawViper.toViper
        { RawViper.unset with
          GetBool := fun k => decide (k = "clustermesh-apiserver-server-cert-generate") })
      ).ClustermeshApiserverServerCertSANs :=
  sans_nil_when_unset Config
    { RawViper.unset with
      GetBool := fun k => decide (k = "clustermesh-apiserver-server-cert-generate") }
    rfl

/-- C8: for a source with `ca-generate` true, `ca-common-name` "Cilium CA",
`ca-secret-namespace` empty and `cilium-namespace` "kube-system", the result
has `CAGenerate` true, `CACommonName` "Cilium CA" and `CASecretNamespace`
"kube-system". -/
theorem ca_scenario (c : CertGenConfig) (vp : Viper)
    (hg : vp.GetBool CAGenerate = true)
    (hn : vp.GetString CACommonName = "Cilium CA")
    (he : vp.GetString CASecretNamespace = "")
    (hd : vp.GetString CiliumNamespace = "kube-system") :
    (c.PopulateFrom vp).CAGenerate = true ∧
    (c.PopulateFrom vp).CACommonName = "Cilium CA" ∧
    (c.PopulateFrom vp).CASecretNamespace = "kube-system" :=
  ⟨hg, hn, (getStringWithFallback_of_eq vp _ _ he).trans hd⟩

/-- C8 at the source that holds exactly the four keys of the scenario. -/
theorem ca_scenario_witness :
    (Config.PopulateFrom (Viper.ofSettings
        [("ca-generate", Value.bool true),
         ("ca-common-name", Value.string "Cilium CA"),
         ("ca-secret-namespace", Value.string ""),
         ("cilium-namespace", Value.string "kube-system")])).CAGenerate = true ∧
    (Config.PopulateFrom (Viper.ofSettings
        [("ca-generate", Value.bool true),
         ("ca-common-name", Value.string "Cilium CA"),
         ("ca-secret-namespace", Value.string ""),
         ("cilium-namespace", Value.string "kube-system")])).CACommonName = "Cilium CA" ∧
    (Config.PopulateFrom (Viper.ofSettings
        [("ca-generate", Value.bool true),
         ("ca-common-name", Value.string "Cilium CA"),
         ("ca-secret-namespace", Value.string ""),
         ("cilium-namespace", Value.string "kube-system")])).CASecretNamespace
      = "kube-system" :=
  ca_scenario Config
    (Viper.ofSettings
        [("ca-generate", Value.bool true),
         ("ca-common-name", Value.string "Cilium CA"),
         ("ca-secret-namespace", Value.string ""),
         ("cilium-namespace", Value.string "kube-system")])
    (by decide) (by decide) (by decide) (by decide)

/-! ## The default namespace reaches the namespace fields only -/

/-- C9: two sources that agree, for every accessor, at every key other than
`cilium-namespace` populate configurations that agree on every field other
than `CiliumNamespace` and the five secret namespaces: the first result with
these six fields taken from the second is the second. The 17 fields of the
Clustermesh apiserver slots are among the 43 fields that agree. -/
theorem default_namespace_reaches_only_namespaces (c1 c2 : CertGenConfig) (vp1 vp2 : Viper)
    (hb : ∀ k, k ≠ CiliumNamespace → vp1.GetBool k = vp2.GetBool k)
    (hs : ∀ k, k ≠ CiliumNamespace → vp1.GetString k = vp2.GetString k)
    (hd : ∀ k, k ≠ CiliumNamespace → vp1.GetDuration k = vp2.GetDuration k)
    (hl : ∀ k, k ≠ CiliumNamespace → vp1.GetStringSlice k = vp2.GetStringSlice k) :
    { c1.PopulateFrom vp1 with
      CiliumNamespace := (c2.PopulateFrom vp2).CiliumNamespace,
      CASecretNamespace := (c2.PopulateFrom vp2).CASecretNamespace,
      HubbleRelayClientCertSecretNamespace := (c2.PopulateFrom vp2).HubbleRelayClientCertSecretNamespace,
      HubbleRelayServerCertSecretNamespace := (c2.PopulateFrom vp2).HubbleRelayServerCertSecretNamespace,
      HubbleServerCertSecretNamespace := (c2.PopulateFrom vp2).HubbleServerCertSecretNamespace,
      HubbleMetricsServerCertSecretNamespace := (c2.PopulateFrom vp2).HubbleMetricsServerCertSecretNamespace }
      = c2.PopulateFrom vp2 := by
  apply CertGenConfig.eq_of_fields
  all_goals first
    | rfl
    | exact hb _ (by decide)
    | exact hs _ (by decide)
    | exact hd _ (by decide)
    | exact hl _ (by decide)

/-- C9 at two sources that differ at `cilium-namespace` only: the results
differ at `CiliumNamespace` and agree outside the six namespace fields. -/
theorem default_namespace_reaches_only_namespaces_witness :
    (Config.PopulateFrom (Viper.ofSettings
        [("cilium-namespace", Value.string "kube-system"),
         ("ca-generate", Value.bool true)])).CiliumNamespace ≠
      (Config.PopulateFrom (Viper.ofSettings
        [("cilium-namespace", Value.string "cilium"),
         ("ca-generate", Value.bool true)])).CiliumNamespace ∧
    { Config.PopulateFrom (Viper.ofSettings
        [("cilium-namespace", Value.string "kube-system"),
         ("ca-generate", Value.bool true)]) with
      CiliumNamespace := (Config.PopulateFrom (Viper.ofSettings
        [("cilium-namespace", Value.string "cilium"),
         ("ca-generate", Value.bool true)])).CiliumNamespace,
      CASecretNamespace := (Config.PopulateFrom (Viper.ofSettings
        [("cilium-namespace", Value.string "cilium"),
         ("ca-generate", Value.bool true)])).CASecretNamespace,
      HubbleRelayClientCertSecretNamespace := (Config.PopulateFrom (Viper.ofSettings
        [("cilium-namespace", Value.string "cilium"),
         ("ca-generate", Value.bool true)])).HubbleRelayClientCertSecretNamespace,
      HubbleRelayServerCertSecretNamespace := (Config.PopulateFrom (Viper.ofSettings
        [("cilium-namespace", Value.string "cilium"),
         ("ca-generate", Value.bool true)])).HubbleRelayServerCertSecretNamespace,
      HubbleServerCertSecretNamespace := (Config.PopulateFrom (Viper.ofSettings
        [("cilium-namespace", Value.string "cilium"),
         ("ca-generate", Value.bool true)])).HubbleServerCertSecretNamespace,
      HubbleMetricsServerCertSecretNamespace := (Config.PopulateFrom (Viper.ofSettings
        [("cilium-namespace", Value.string "cilium"),
         ("ca-generate", Value.bool true)])).HubbleMetricsServerCertSecretNamespace }
      = Config.PopulateFrom (Viper.ofSettings
        [("cilium-namespace", Value.string "cilium"),
         ("ca-generate", Value.bool true)]) :=
  ⟨by decide,
   default_namespace_reaches_only_namespaces Config Config
    (Viper.ofSettings
        [("cilium-namespace", Value.string "kube-system"),
         ("ca-generate", Value.bool true)])
    (Viper.ofSettings
        [("cilium-namespace", Value.string "cilium"),
         ("ca-generate", Value.bool true)])
    (fun k hk => by
      have h : (k == "cilium-namespace") = false := by simpa [CiliumNamespace] using hk
      simp [Viper.ofSettings, List.lookup, h])
    (fun k hk => by
      have h : (k == "cilium-namespace") = false := by simpa [CiliumNamespace] using hk
      simp [Viper.ofSettings, List.lookup, h])
    (fun k hk => by
      have h : (k == "cilium-namespace") = false := by simpa [CiliumNamespace] using hk
      simp [Viper.ofSettings, List.lookup, h])
    (fun k hk => by
      have h : (k == "cilium-namespace") = false := by simpa [CiliumNamespace] using hk
      simp [Viper.ofSettings, List.lookup, h])⟩

/-! ## When a resolved namespace is empty -/

/-- The fallback result is empty exactly when the value at `key` and the value
at `fallbackKey` are both empty. -/
theorem getStringWithFallback_eq_empty (vp : Viper) (key fallbackKey : String) :
    getStringWithFallback vp key fallbackKey = "" ↔
      vp.GetString key = "" ∧ vp.GetString fallbackKey = "" := by
  by_cases h : vp.GetString key = ""
  · rw [getStringWithFallback_of_eq vp key fallbackKey h]
    exact ⟨fun hf => ⟨h, hf⟩, fun hf => hf.2⟩
  · rw [getStringWithFallback_of_ne vp key fallbackKey h]
    exact ⟨fun hk => absurd hk h, fun hk => hk.1⟩

/-- C11: `getStringWithFallback` returns the empty string if and only if the
values at `key` and at `fallbackKey` are both empty; hence each of the five
resolved secret namespaces is empty if and only if the slot's namespace key and
`cilium-namespace` both hold the empty string. -/
theorem slot_namespace_empty_iff (c : CertGenConfig) (vp : Viper)
    (key fallbackKey : String) :
    (getStringWithFallback vp key fallbackKey = "" ↔
      vp.GetString key = "" ∧ vp.GetString fallbackKey = "") ∧
    ((c.PopulateFrom vp).CASecretNamespace = "" ↔
      vp.GetString CASecretNamespace = "" ∧
        vp.GetString CiliumNamespace = "") ∧
    ((c.PopulateFrom vp).HubbleServerCertSecretNamespace = "" ↔
      vp.GetString HubbleServerCertSecretNamespace = "" ∧
        vp.GetString CiliumNamespace = "") ∧
    ((c.PopulateFrom vp).HubbleMetricsServerCertSecretNamespace = "" ↔
      vp.GetString HubbleMetricsServerCertSecretNamespace = "" ∧
        vp.GetString CiliumNamespace = "") ∧
    ((c.PopulateFrom vp).HubbleRelayServerCertSecretNamespace = "" ↔
      vp.GetString HubbleRelayServerCertSecretNamespace = "" ∧
        vp.GetString CiliumNamespace = "") ∧
    ((c.PopulateFrom vp).HubbleRelayClientCertSecretNamespace = "" ↔
      vp.GetString HubbleRelayClientCertSecretNamespace = "" ∧
        vp.GetString CiliumNamespace = "") :=
  ⟨getStringWithFallback_eq_empty vp key fallbackKey,
   getStringWithFallback_eq_empty vp _ _,
   getStringWithFallback_eq_empty vp _ _,
   getStringWithFallback_eq_empty vp _ _,
   getStringWithFallback_eq_empty vp _ _,
   getStringWithFallback_eq_empty vp _ _⟩

/-! ## The keys read by `PopulateFrom` -/

/-- The recorded fallback returns what `getStringWithFallback` returns. -/
theorem getStringWithFallbackT_val (vp : Viper) (key fallbackKey : String) :
    (getStringWithFallbackT vp key fallbackKey).val = getStringWithFallback vp key fallbackKey := by
  by_cases h : vp.GetString key = ""
  · simp [getStringWithFallbackT, getStringWithFallback, bind, Traced.bind, Viper.GetStringT, h]
  · simp [getStringWithFallbackT, getStringWithFallback, bind, Traced.bind, Viper.GetStringT, h,
      pure, Traced.pure]

/-- The recorded `PopulateFrom` returns what `PopulateFrom` returns. -/
theorem populateFromT_val (c : CertGenConfig) (vp : Viper) :
    (c.PopulateFromT vp).val = c.PopulateFrom vp := by
  apply CertGenConfig.eq_of_fields
  all_goals first
    | rfl
    | exact getStringWithFallbackT_val vp _ _

/-- The 49 key constants are pairwise distinct. -/
theorem allKeys_nodup : allKeys.Nodup := by decide

/-- The keys read by the fallback: `key`, then `fallbackKey` when the value at
`key` is empty. -/
theorem getStringWithFallbackT_reads (vp : Viper) (key fallbackKey : String) :
    (getStringWithFallbackT vp key fallbackKey).reads =
      if vp.GetString key = "" then [key, fallbackKey] else [key] := by
  by_cases h : vp.GetString key = ""
  · simp [getStringWithFallbackT, bind, Traced.bind, Viper.GetStringT, h]
  · simp [getStringWithFallbackT, bind, Traced.bind, Viper.GetStringT, h, pure, Traced.pure]

/-- The keys read by `PopulateFrom`, call by call. -/
theorem populateFromT_reads (c : CertGenConfig) (vp : Viper) :
    (c.PopulateFromT vp).reads =
      [Debug] ++ (
      [K8sKubeConfigPath] ++ (
      [K8sRequestTimeout] ++ (
      [CACertFile] ++ (
      [CAKeyFile] ++ (
      [CAGenerate] ++ (
      [CAReuseSecret] ++ (
      [CACommonName] ++ (
      [CAValidityDuration] ++ (
      [CASecretName] ++ (
      (getStringWithFallbackT vp CASecretNamespace CiliumNamespace).reads ++ (
      [HubbleRelayClientCertGenerate] ++ (
      [HubbleRelayClientCertCommonName] ++ (
      [HubbleRelayClientCertValidityDuration] ++ (
      [HubbleRelayClientCertSecretName] ++ (
      (getStringWithFallbackT vp HubbleRelayClientCertSecretNamespace CiliumNamespace).reads ++ (
      [HubbleRelayServerCertGenerate] ++ (
      [HubbleRelayServerCertCommonName] ++ (
      [HubbleRelayServerCertValidityDuration] ++ (
      [HubbleRelayServerCertSecretName] ++ (
      (getStringWithFallbackT vp HubbleRelayServerCertSecretNamespace CiliumNamespace).reads ++ (
      [HubbleServerCertGenerate] ++ (
      [HubbleServerCertCommonName] ++ (
      [HubbleServerCertValidityDuration] ++ (
      [HubbleServerCertSecretName] ++ (
      (getStringWithFallbackT vp HubbleServerCertSecretNamespace CiliumNamespace).reads ++ (
      [HubbleMetricsServerCertGenerate] ++ (
      [HubbleMetricsServerCertCommonName] ++ (
      [HubbleMetricsServerCertValidityDuration] ++ (
      [HubbleMetricsServerCertSecretName] ++ (
      (getStringWithFallbackT vp HubbleMetricsServerCertSecretNamespace CiliumNamespace).reads ++ (
      [CiliumNamespace] ++ (
      [ClustermeshApiserverServerCertGenerate] ++ (
      [ClustermeshApiserverServerCertCommonName] ++ (
      [ClustermeshApiserverServerCertValidityDuration] ++ (
      [ClustermeshApiserverServerCertSecretName] ++ (
      [ClustermeshApiserverServerCertSANs] ++ (
      [ClustermeshApiserverAdminCertGenerate] ++ (
      [ClustermeshApiserverAdminCertCommonName] ++ (
      [ClustermeshApiserverAdminCertValidityDuration] ++ (
      [ClustermeshApiserverAdminCertSecretName] ++ (
      [ClustermeshApiserverClientCertGenerate] ++ (
      [ClustermeshApiserverClientCertCommonName] ++ (
      [ClustermeshApiserverClientCertValidityDuration] ++ (
      [ClustermeshApiserverClientCertSecretName] ++ (
      [ClustermeshApiserverRemoteCertGenerate] ++ (
      [ClustermeshApiserverRemoteCertCommonName] ++ (
      [ClustermeshApiserverRemoteCertValidityDuration] ++ (
      [ClustermeshApiserverRemoteCertSecretName] ++ (
      []))))))))))))))))))))))))))))))))))))))))))))))))) :=
  rfl

/-- Counting in a list of two or more entries, one entry at a time. -/
theorem count_cons_cons (a b b' : String) (l : List String) :
    List.count a (b :: b' :: l) = List.count a [b] + List.count a (b' :: l) := by
  rw [← List.singleton_append, List.count_append]

/-- The keys read by `PopulateFrom` are the 49 key constants, once each, and
`cilium-namespace` once more for each namespaced slot whose own value is empty. -/
theorem populateFromT_reads_perm (c : CertGenConfig) (vp : Viper) :
    List.Perm (c.PopulateFromT vp).reads
      (allKeys ++ List.replicate
        (List.countP (fun k => decide (vp.GetString k = ""))
          [CASecretNamespace,
          HubbleRelayClientCertSecretNamespace,
          HubbleRelayServerCertSecretNamespace,
          HubbleServerCertSecretNamespace,
          HubbleMetricsServerCertSecretNamespace])
        CiliumNamespace) := by
  rw [List.perm_iff_count]
  intro a
  rw [populateFromT_reads]
  simp only [getStringWithFallbackT_reads, allKeys]
  by_cases h1 : vp.GetString CASecretNamespace = "" <;>
  by_cases h2 : vp.GetString HubbleRelayClientCertSecretNamespace = "" <;>
  by_cases h3 : vp.GetString HubbleRelayServerCertSecretNamespace = "" <;>
  by_cases h4 : vp.GetString HubbleServerCertSecretNamespace = "" <;>
  by_cases h5 : vp.GetString HubbleMetricsServerCertSecretNamespace = "" <;>
  simp only [h1, h2, h3, h4, h5, if_true, if_false, List.countP_cons, List.countP_nil,
    decide_True, decide_False, List.replicate, List.count_append, count_cons_cons,
    List.count_nil, ite_true, ite_false, Nat.zero_add, Nat.add_zero, Nat.reduceAdd] <;>
  ac_rfl

/-- A key that `PopulateFrom` reads more than once is `cilium-namespace`. -/
theorem populateFromT_reads_twice (c : CertGenConfig) (vp : Viper) (k : String)
    (hk : 1 < (c.PopulateFromT vp).reads.count k) : k = CiliumNamespace := by
  by_contra hne
  have hp := (populateFromT_reads_perm c vp).count_eq k
  have hn := List.nodup_iff_count_le_one.1 allKeys_nodup k
  have hr : ∀ n, List.count k (List.replicate n CiliumNamespace) = 0 := fun n =>
    List.count_eq_zero_of_not_mem (fun hm => hne (List.eq_of_mem_replicate hm))
  rw [List.count_append, hr] at hp
  omega

/-- Populating from the source that holds each field of `cfg` under its key
gives every field its own value back; a secret namespace that is empty in `cfg`
takes the value of `CiliumNamespace`. -/
theorem populate_toSource (c cfg : CertGenConfig) :
    c.PopulateFrom (toSource cfg) =
    { cfg with
      CASecretNamespace :=
        if cfg.CASecretNamespace ≠ "" then cfg.CASecretNamespace
        else cfg.CiliumNamespace,
      HubbleRelayClientCertSecretNamespace :=
        if cfg.HubbleRelayClientCertSecretNamespace ≠ "" then cfg.HubbleRelayClientCertSecretNamespace
        else cfg.CiliumNamespace,
      HubbleRelayServerCertSecretNamespace :=
        if cfg.HubbleRelayServerCertSecretNamespace ≠ "" then cfg.HubbleRelayServerCertSecretNamespace
        else cfg.CiliumNamespace,
      HubbleServerCertSecretNamespace :=
        if cfg.HubbleServerCertSecretNamespace ≠ "" then cfg.HubbleServerCertSecretNamespace
        else cfg.CiliumNamespace,
      HubbleMetricsServerCertSecretNamespace :=
        if cfg.HubbleMetricsServerCertSecretNamespace ≠ "" then cfg.HubbleMetricsServerCertSecretNamespace
        else cfg.CiliumNamespace } := by
  apply CertGenConfig.eq_of_fields
  all_goals rfl

/-- C12: the 49 key constants of the const block are pairwise distinct;
`PopulateFrom` reads each of them once as the key of the field of its name, so
that a source holding a value under every key gives each field the value under
its own key (no two fields share a key); and the only key it reads more than
once is `cilium-namespace`, read once more as the fallback of each of the five
secret namespaces whose own value is empty. -/
theorem keys_distinct_and_read_once (c cfg : CertGenConfig) (vp : Viper) :
    allKeys.length = 49 ∧ allKeys.Nodup ∧
    (c.PopulateFromT vp).val = c.PopulateFrom vp ∧
    List.Perm (c.PopulateFromT vp).reads
      (allKeys ++ List.replicate
        (List.countP (fun k => decide (vp.GetString k = ""))
          [CASecretNamespace,
          HubbleRelayClientCertSecretNamespace,
          HubbleRelayServerCertSecretNamespace,
          HubbleServerCertSecretNamespace,
          HubbleMetricsServerCertSecretNamespace])
        CiliumNamespace) ∧
    (∀ k, 1 < (c.PopulateFromT vp).reads.count k → k = CiliumNamespace) ∧
    c.PopulateFrom (toSource cfg) =
    { cfg with
      CASecretNamespace :=
        if cfg.CASecretNamespace ≠ "" then cfg.CASecretNamespace
        else cfg.CiliumNamespace,
      HubbleRelayClientCertSecretNamespace :=
        if cfg.HubbleRelayClientCertSecretNamespace ≠ "" then cfg.HubbleRelayClientCertSecretNamespace
        else cfg.CiliumNamespace,
      HubbleRelayServerCertSecretNamespace :=
        if cfg.HubbleRelayServerCertSecretNamespace ≠ "" then cfg.HubbleRelayServerCertSecretNamespace
        else cfg.CiliumNamespace,
      HubbleServerCertSecretNamespace :=
        if cfg.HubbleServerCertSecretNamespace ≠ "" then cfg.HubbleServerCertSecretNamespace
        else cfg.CiliumNamespace,
      HubbleMetricsServerCertSecretNamespace :=
        if cfg.HubbleMetricsServerCertSecretNamespace ≠ "" then cfg.HubbleMetricsServerCertSecretNamespace
        else cfg.CiliumNamespace } :=
  ⟨rfl, allKeys_nodup, populateFromT_val c vp, populateFromT_reads_perm c vp,
   populateFromT_reads_twice c vp, populate_toSource c cfg⟩

end option
